import Mathlib

/-!
Verification of the blog article listing/filtering subsystem of the website
repository, covering the new blog page (an MDX page component) and the legacy
page `src/pages/blog.tsx`.

The new blog page reads the `tag` query value, normalizes it with `asArray`,
computes the tag summary over all blogs with `extractRelevantTags`, and filters
the article list when at least one tag is requested.  The legacy page receives
`articles` and `tagFilter` as props, renders a featured block for the most
recent article and a newsletter only when no tag filter is active, and always
renders the full article list.
-/

/-- An article metadata record of the new blog page: identifying link, title,
description, publication date (orderable timestamp) and its list of tag
labels. -/
structure Article where
  link : String
  title : String
  description : String
  date : Nat
  tags : List String
  deriving Repr, DecidableEq

/-- The `tag` query value of the new blog page: it may be absent, a single
string, or a list of strings. -/
inductive QueryTag where
  | absent : QueryTag
  | scalar : String → QueryTag
  | multi : List String → QueryTag
  deriving Repr, DecidableEq

/-- Modelled from the spec: the helper `asArray` (file `lib/as-array`, not
present under src/) coerces the requested-tags input, which "may arrive as a
single scalar or an already-plural collection", to a collection of string
labels. -/
def asArray : QueryTag → List String
  | QueryTag.absent => []
  | QueryTag.scalar s => [s]
  | QueryTag.multi ss => ss

/-- JavaScript falsiness of the `query.tag` value as tested by `!query.tag`:
an absent value or the empty string is falsy; an array value is truthy. -/
def queryTagFalsy : QueryTag → Bool
  | QueryTag.absent => true
  | QueryTag.scalar s => s.isEmpty
  | QueryTag.multi _ => false

/-- Line `tagsFilter = !query.tag ? [] : asArray(query.tag)` of the new blog
page. -/
def tagsFilterOf (q : QueryTag) : List String :=
  if queryTagFalsy q then [] else asArray q

/-- The filtering step of the new blog page:
`if (tagsFilter.length > 0) articles = articles.filter(article =>
tagsFilter.length === 0 || asArray(article.tags).some(tag =>
tagsFilter.includes(tag)))`.  The article tags are already a list here, on
which the `asArray` coercion is the identity. -/
def filterByTags (articles : List Article) (tagsFilter : List String) : List Article :=
  if 0 < tagsFilter.length then
    articles.filter fun article =>
      decide (tagsFilter.length = 0) || article.tags.any fun tag => tagsFilter.contains tag
  else
    articles

/-- A tag summary entry: a tag label plus the count of articles referencing
it. -/
structure TagSummaryEntry where
  tag : String
  count : Nat
  deriving Repr, DecidableEq

/-- Modelled from the spec: `extractRelevantTags` (file `lib/tags`, not present
under src/) derives "for each distinct tag label across all articles, the
number of articles referencing it"; the order is the deterministic order of
`List.dedup` over the concatenated tag lists. -/
def extractTagSummary (articles : List Article) : List TagSummaryEntry :=
  ((articles.map Article.tags).flatten.dedup).map fun t =>
    { tag := t, count := articles.countP fun a => a.tags.contains t }

/-- Featured/recent selection as in the legacy page: the candidate is the
first element of the article list (`(articles || [])[0]`), and it is rendered
only when no tag filter is active (`recentArticle && !hasTagFilter`).  The
selection never inspects the article fields, so it is polymorphic in the
article record type. -/
def selectFeatured {α : Type} (articles : List α) (isFiltered : Bool) : Option α :=
  match articles.head? with
  | some a => if isFiltered then none else some a
  | none => none

/-- The render-ready view model: filtered articles, optional featured article,
tag summary over the full set, and whether a tag filter is active. -/
structure ViewModel where
  orderedArticles : List Article
  featured : Option Article
  tagSummary : List TagSummaryEntry
  isFiltered : Bool
  deriving Repr, DecidableEq

/-- List assembly, following the body of the new blog page component: the
requested tags are normalized with `tagsFilterOf`, the tag summary is computed
from the full article list, filtering applies `filterByTags`, and the featured
article is selected as in the legacy page, suppressed when a filter is
active. -/
def buildBlogViewModel (articles : List Article) (q : QueryTag) : ViewModel :=
  let tagsFilter := tagsFilterOf q
  { orderedArticles := filterByTags articles tagsFilter
    featured := selectFeatured articles (decide (0 < tagsFilter.length))
    tagSummary := extractTagSummary articles
    isFiltered := decide (0 < tagsFilter.length) }

/-- The spec's normalization, stated in its own words: the requested-tags input
is coerced to a set of distinct string labels, and an empty or absent input
coerces to the empty set.  Used to compare the code's normalization against the
spec. -/
def requestedTagSet (q : QueryTag) : Finset String :=
  match q with
  | QueryTag.absent => ∅
  | QueryTag.scalar s => if s.isEmpty then ∅ else {s}
  | QueryTag.multi ss => ss.toFinset

/-- An article record of the legacy page (`MetaWithLink` in `lib/types`, fields
as used by `src/pages/blog.tsx`): thumbnail, image and tags may be absent. -/
structure MetaWithLink where
  link : String
  title : String
  description : String
  thumbnail : Option String
  image : Option String
  date : String
  author : String
  tags : Option (List String)
  deriving Repr, DecidableEq

/-- Line `hasTagFilter = tagFilter && tagFilter.length > 0` of the legacy
page: false when the prop is absent, otherwise true exactly when the list is
non-empty. -/
def hasTagFilter (tagFilter : Option (List String)) : Bool :=
  match tagFilter with
  | none => false
  | some l => decide (0 < l.length)

/-- The props handed to one `ArticleCard` by the legacy page's list. -/
structure ArticleCardProps where
  author : String
  title : String
  description : String
  image : Option String
  link : String
  date : String
  tags : List String
  deriving Repr, DecidableEq

/-- One step of `(articles || []).map(...)` in the legacy page: the card image
is `article.thumbnail || article.image` and the card tags are
`article.tags || []`. -/
def articleCard (article : MetaWithLink) : ArticleCardProps :=
  { author := article.author
    title := article.title
    description := article.description
    image := article.thumbnail.orElse fun _ => article.image
    link := article.link
    date := article.date
    tags := article.tags.getD [] }

/-- The observable output of rendering the legacy blog page: the filter banner
text, the featured article, whether the newsletter is shown, and the article
cards. -/
structure BlogPageView where
  filterBanner : Option String
  featured : Option MetaWithLink
  newsletterShown : Bool
  articleCards : List ArticleCardProps
  deriving Repr, DecidableEq

/-- The legacy page component `Blog` of `src/pages/blog.tsx`: the articles
prop may be absent (`articles || []` guards both uses), the featured block
shows the first article only when no tag filter is active, the newsletter is
shown only when no tag filter is active, and the full article list is always
mapped to cards. -/
def renderBlog (articles : Option (List MetaWithLink)) (tagFilter : Option (List String)) :
    BlogPageView :=
  let htf := hasTagFilter tagFilter
  { filterBanner := if htf then some (String.intercalate ", " (tagFilter.getD [])) else none
    featured := selectFeatured (articles.getD []) htf
    newsletterShown := !htf
    articleCards := (articles.getD []).map articleCard }

/-- Sample article tagged with react and webflow. -/
def sampleReact : Article :=
  { link := "p1", title := "t1", description := "d1", date := 2, tags := ["react", "webflow"] }

/-- Sample article tagged with cpp. -/
def sampleCpp : Article :=
  { link := "p2", title := "t2", description := "d2", date := 1, tags := ["cpp"] }

/-- Sample legacy article with all optional fields present. -/
def metaOne : MetaWithLink :=
  { link := "m1", title := "t1", description := "d1", thumbnail := some "th1",
    image := some "im1", date := "2021-01-02", author := "a1", tags := some ["react"] }

/-- Sample legacy article with all optional fields present. -/
def metaTwo : MetaWithLink :=
  { link := "m2", title := "t2", description := "d2", thumbnail := none,
    image := some "im2", date := "2021-01-01", author := "a2", tags := some ["graphql"] }

/-- Sample legacy article whose tags field is absent. -/
def metaNoTags : MetaWithLink :=
  { link := "m3", title := "t3", description := "d3", thumbnail := none,
    image := none, date := "2021-01-03", author := "a3", tags := none }

/-- Claim C2: filtering with an empty requested tag list is the identity: it
returns the article list unchanged, same order and same members. -/
theorem filterByTags_empty_identity (A : List Article) : filterByTags A [] = A := rfl

/-- Claim C3: the filtered list is a sublist of the input list, so the
matching articles appear in the same relative order as in the input; the
filter is stable and never re-sorts. -/
theorem filterByTags_preserves_order (A : List Article) (T : List String) :
    (filterByTags A T).Sublist A := by
  unfold filterByTags
  split
  · exact List.filter_sublist A
  · exact List.Sublist.refl A

/-- Claim C1: for every article list and every non-empty requested tag list,
the filtered list contains exactly those input articles with at least one tag
in the requested list (any-match/union semantics). -/
theorem filterByTags_any_match (A : List Article) (T : List String) (hT : T ≠ [])
    (a : Article) : a ∈ filterByTags A T ↔ a ∈ A ∧ ∃ t ∈ a.tags, t ∈ T := by
  have hlen : 0 < T.length := List.length_pos.mpr hT
  unfold filterByTags
  rw [if_pos hlen]
  simp [List.mem_filter, List.any_eq_true, List.elem_iff, List.length_eq_zero, hT]

/-- Witness for C1: the react-tagged article matches the request for react. -/
theorem filterByTags_any_match_witness :
    (["react"] : List String) ≠ [] ∧
      (sampleReact ∈ filterByTags [sampleReact, sampleCpp] ["react"] ↔
        sampleReact ∈ [sampleReact, sampleCpp] ∧ ∃ t ∈ sampleReact.tags, t ∈ ["react"]) :=
  ⟨by decide, filterByTags_any_match [sampleReact, sampleCpp] ["react"] (by decide) sampleReact⟩

/-- Claim C4: the featured selection returns nothing when a tag filter is
active or when the article list is empty, and otherwise returns the first
article of the list. -/
theorem selectFeatured_spec (A : List MetaWithLink) (b : Bool) :
    ((b = true ∨ A = []) → selectFeatured A b = none) ∧
    (b = false → ∀ x xs, A = x :: xs → selectFeatured A b = some x) := by
  constructor
  · rintro (rfl | rfl)
    · cases A <;> simp [selectFeatured]
    · simp [selectFeatured]
  · rintro rfl x xs rfl
    simp [selectFeatured]

/-- Witness for C4: suppression under an active filter, on an empty list, and
first-element selection otherwise. -/
theorem selectFeatured_spec_witness :
    (selectFeatured [metaOne, metaTwo] true = none ∧
      selectFeatured ([] : List MetaWithLink) false = none) ∧
    selectFeatured [metaOne, metaTwo] false = some metaOne :=
  ⟨⟨(selectFeatured_spec [metaOne, metaTwo] true).1 (Or.inl rfl),
    (selectFeatured_spec ([] : List MetaWithLink) false).1 (Or.inr rfl)⟩,
    (selectFeatured_spec [metaOne, metaTwo] false).2 rfl metaOne [metaTwo] rfl⟩

/-- Claim C5: the legacy page always renders a card for every input article,
for every tag filter value; an active tag filter suppresses the featured block
and the newsletter but removes no article from the rendered list. -/
theorem legacy_full_list (A : List MetaWithLink) (tf : Option (List String)) :
    (renderBlog (some A) tf).articleCards = A.map articleCard ∧
    (hasTagFilter tf = true →
      (renderBlog (some A) tf).featured = none ∧
      (renderBlog (some A) tf).newsletterShown = false) := by
  refine ⟨rfl, fun h => ⟨?_, ?_⟩⟩
  · cases A <;> simp [renderBlog, selectFeatured, h]
  · simp [renderBlog, h]

/-- Witness for C5: with an active react filter the single article is still
rendered while featured and newsletter are suppressed. -/
theorem legacy_full_list_witness :
    hasTagFilter (some ["react"]) = true ∧
      ((renderBlog (some [metaOne]) (some ["react"])).articleCards =
          [metaOne].map articleCard ∧
        ((renderBlog (some [metaOne]) (some ["react"])).featured = none ∧
          (renderBlog (some [metaOne]) (some ["react"])).newsletterShown = false)) :=
  ⟨by decide, (legacy_full_list [metaOne] (some ["react"])).1,
    (legacy_full_list [metaOne] (some ["react"])).2 (by decide)⟩

/-- Claim C6: the requested-tags input, whether absent, a single scalar, or a
collection, normalizes (as a set) to the spec's set of distinct labels, with
absent/empty going to the empty set, and the view model is filtered exactly
when that set is non-empty. -/
theorem normalization_spec (A : List Article) (q : QueryTag) :
    (tagsFilterOf q).toFinset = requestedTagSet q ∧
    ((buildBlogViewModel A q).isFiltered = true ↔ (requestedTagSet q).Nonempty) := by
  have hvm : (buildBlogViewModel A q).isFiltered = decide (0 < (tagsFilterOf q).length) := rfl
  cases q with
  | absent => simp [tagsFilterOf, requestedTagSet, queryTagFalsy, hvm]
  | scalar s =>
    by_cases hs : s.isEmpty <;>
      simp [tagsFilterOf, requestedTagSet, queryTagFalsy, asArray, hs, hvm]
  | multi ss =>
    simp [tagsFilterOf, requestedTagSet, queryTagFalsy, asArray, hvm, List.length_pos,
      List.toFinset_nonempty_iff]

/-- Claim C7: the view model's tag summary is computed from the full article
list and is independent of the requested tags. -/
theorem tagSummary_unfiltered (A : List Article) (q q' : QueryTag) :
    (buildBlogViewModel A q).tagSummary = extractTagSummary A ∧
    (buildBlogViewModel A q).tagSummary = (buildBlogViewModel A q').tagSummary :=
  ⟨rfl, rfl⟩

/-- Claim C8: on the empty article list with no requested tags (given either
as an empty collection or as an absent value) the view model is built without
error and every field degrades to empty, none or false. -/
theorem buildBlogViewModel_empty :
    buildBlogViewModel [] (QueryTag.multi []) =
      { orderedArticles := [], featured := none, tagSummary := [], isFiltered := false } ∧
    buildBlogViewModel [] QueryTag.absent =
      { orderedArticles := [], featured := none, tagSummary := [], isFiltered := false } :=
  ⟨rfl, rfl⟩

/-- Claim C9: a non-empty requested tag list disjoint from every article's
tags filters everything out, yielding the empty list and no error. -/
theorem filterByTags_unknown_tags (A : List Article) (T : List String) (hT : T ≠ [])
    (h : ∀ a ∈ A, ∀ t ∈ a.tags, t ∉ T) : filterByTags A T = [] := by
  have hlen : 0 < T.length := List.length_pos.mpr hT
  unfold filterByTags
  rw [if_pos hlen]
  refine List.filter_eq_nil_iff.mpr fun a ha => ?_
  simp [List.any_eq_true, List.elem_iff, List.length_eq_zero, hT]
  exact h a ha

/-- Witness for C9: requesting the unknown tag rust over the sample articles
yields the empty list. -/
theorem filterByTags_unknown_tags_witness :
    ((["rust"] : List String) ≠ [] ∧
      ∀ a ∈ [sampleReact, sampleCpp], ∀ t ∈ a.tags, t ∉ (["rust"] : List String)) ∧
    filterByTags [sampleReact, sampleCpp] ["rust"] = [] :=
  ⟨⟨by decide, by decide⟩,
    filterByTags_unknown_tags [sampleReact, sampleCpp] ["rust"] (by decide) (by decide)⟩

/-- Claim C10: the legacy page degrades safely: an absent articles prop
renders an empty card list and no featured article, and an article with an
absent tags field is rendered with an empty tag list. -/
theorem legacy_degrades_safely (tf : Option (List String)) (a : MetaWithLink)
    (h : a.tags = none) :
    (renderBlog none tf).articleCards = [] ∧ (renderBlog none tf).featured = none ∧
      (articleCard a).tags = [] := by
  refine ⟨rfl, rfl, ?_⟩
  simp [articleCard, h]

/-- Witness for C10: the tagless sample article and the absent articles
prop. -/
theorem legacy_degrades_safely_witness :
    metaNoTags.tags = none ∧
      ((renderBlog none none).articleCards = [] ∧ (renderBlog none none).featured = none ∧
        (articleCard metaNoTags).tags = []) :=
  ⟨rfl, legacy_degrades_safely none metaNoTags rfl⟩
